import Mathlib

/-!
Verification of the daily land-surface-temperature (LST) prediction pipeline
(Google Earth Engine script: high-resolution LST prediction).

The development shallowly embeds the script's core pipeline:
dates are modelled as natural numbers (days since an epoch), image-collection
queries as filters over lists of image records, rasters at the granularity the
properties need (band-name lists, per-point values in ℚ), and the server-side
deferred collections as plain Lean lists.
-/

namespace LSTPipeline

/-! ### Source imagery model

A Sentinel-2 image record carries the metadata the script's queries inspect:
its acquisition day, the regions its footprint intersects (regions are
identified by a natural number), and its CLOUDY_PIXEL_PERCENTAGE property. -/

structure SImage where
  day : ℕ
  regions : List ℕ
  cloudyPixelPercentage : ℚ
deriving DecidableEq, Repr

/-- The training-period query on the Sentinel-2 collection:
`ee.Filter.and(ee.Filter.bounds(roi), ee.Filter.date(start, end))` —
footprint intersects the region of interest and acquisition day lies in the
half-open window [s, e). -/
def trainingFilter (roi s e : ℕ) (im : SImage) : Bool :=
  im.regions.contains roi && decide (s ≤ im.day) && decide (im.day < e)

/-- The per-day inference query:
`s2.filterBounds(aoi).filterDate(day, day.advance(1,'day')).filter(ee.Filter.lt('CLOUDY_PIXEL_PERCENTAGE', 10))` —
footprint intersects the area of interest, acquisition day equals the unit's
day, and cloudiness is below 10 percent. -/
def inferenceFilter (aoi d : ℕ) (im : SImage) : Bool :=
  im.regions.contains aoi && im.day == d && decide (im.cloudyPixelPercentage < 10)

/-- The Sentinel-2 images matched for one time unit (`s2day` in the script). -/
def s2day (s2col : List SImage) (aoi d : ℕ) : List SImage :=
  s2col.filter (inferenceFilter aoi d)

/-! ### Time steps -/

/-- One unit of the output series.  `timestamp` is the day the script stores in
millisecond form via `set('system:time_start', day.millis())`; `bands` is the
image's band-name list (both branches end in `rename('LST')`); `field` records
the predicted raster as the composite inputs it was classified from (`none`
for the masked dummy image `ee.Image()`); `noData` and `sourceImageCount` are
the image's optional metadata properties of those names (`none` = property not
set on the image). -/
structure TimeStep where
  timestamp : ℕ
  bands : List String
  field : Option (List SImage)
  noData : Option ℕ
  sourceImageCount : Option ℕ
deriving DecidableEq, Repr

/-- Fallback element for positional access into a series. -/
def dummyStep : TimeStep := ⟨0, [], none, none, none⟩

/-- The per-timestep inference engine `predictDailyLST(startDate, endDate, aoi)`.
`days` is `ee.List.sequence(0, end.difference(start,'day') - 1)`, i.e. the
offsets `0 … (e-s)-1`; for each offset the script gathers that day's Sentinel-2
images, and branches on `s2day.size().gt(0)`: with data it classifies the
median composite into a single band renamed `LST` tagged with the day's
timestamp, otherwise it emits the dummy image renamed `LST` with the day's
timestamp and the marker property `noData = 1`. -/
def predictDailyLST (s2col : List SImage) (startDate endDate aoi : ℕ) : List TimeStep :=
  (List.range (endDate - startDate)).map (fun offset =>
    let day := startDate + offset
    let imgs := s2day s2col aoi day
    if 0 < imgs.length then
      { timestamp := day, bands := ["LST"], field := some imgs,
        noData := none, sourceImageCount := none }
    else
      { timestamp := day, bands := ["LST"], field := none,
        noData := some 1, sourceImageCount := none })

/-! ### Helper lemmas about the engine output -/

lemma predict_length (c : List SImage) (s e a : ℕ) :
    (predictDailyLST c s e a).length = e - s := by
  simp [predictDailyLST]

lemma predict_map_timestamp (c : List SImage) (s e a : ℕ) :
    (predictDailyLST c s e a).map TimeStep.timestamp = List.range' s (e - s) := by
  unfold predictDailyLST
  rw [List.map_map, List.range'_eq_map_range]
  refine List.map_congr_left (fun o _ => ?_)
  by_cases h : 0 < (s2day c a (s + o)).length <;> simp [h]

lemma predict_mem_iff (c : List SImage) (s e a : ℕ) (t : TimeStep) :
    t ∈ predictDailyLST c s e a ↔
      ∃ o, o < e - s ∧
        t = (if 0 < (s2day c a (s + o)).length then
              (⟨s + o, ["LST"], some (s2day c a (s + o)), none, none⟩ : TimeStep)
            else
              (⟨s + o, ["LST"], none, some 1, none⟩ : TimeStep)) := by
  unfold predictDailyLST
  simp only [List.mem_map, List.mem_range]
  constructor
  · rintro ⟨o, ho, rfl⟩
    exact ⟨o, ho, by by_cases h : 0 < (s2day c a (s + o)).length <;> simp [h]⟩
  · rintro ⟨o, ho, rfl⟩
    exact ⟨o, ho, by by_cases h : 0 < (s2day c a (s + o)).length <;> simp [h]⟩

lemma predict_cases (c : List SImage) (s e a : ℕ) (t : TimeStep)
    (ht : t ∈ predictDailyLST c s e a) :
    t.bands = ["LST"] ∧ t.sourceImageCount = none ∧
      ((t.field = some (s2day c a t.timestamp) ∧ t.noData = none ∧
          0 < (s2day c a t.timestamp).length) ∨
        (t.field = none ∧ t.noData = some 1 ∧ (s2day c a t.timestamp).length = 0)) := by
  rcases (predict_mem_iff c s e a t).1 ht with ⟨o, _, rfl⟩
  by_cases h : 0 < (s2day c a (s + o)).length
  · simp [h]
  · simp [h, Nat.eq_zero_of_not_pos h]

/-- Claim C1: for every requested date range [start, end) and region, the
inference engine's prediction series has exactly one TimeStep per requested
day (its timestamps are exactly `start, start+1, …, end-1`), timestamps
strictly increasing with no duplicates and no gaps, full length `end - start`,
and every entry is either Valid (predicted field present, no `noData` flag) or
NoData (`noData = 1`, no field) — so the series is full-length even when some
units have no source imagery. -/
theorem series_complete_one_step_per_day (c : List SImage) (s e aoi : ℕ) :
    (predictDailyLST c s e aoi).map TimeStep.timestamp = List.range' s (e - s) ∧
    (predictDailyLST c s e aoi).length = e - s ∧
    List.Pairwise (· < ·) ((predictDailyLST c s e aoi).map TimeStep.timestamp) ∧
    ∀ t ∈ predictDailyLST c s e aoi,
      (t.field.isSome = true ∧ t.noData = none) ∨ (t.field = none ∧ t.noData = some 1) := by
  refine ⟨predict_map_timestamp c s e aoi, predict_length c s e aoi, ?_, ?_⟩
  · rw [predict_map_timestamp]
    exact List.pairwise_lt_range' s (e - s)
  · intro t ht
    rcases predict_cases c s e aoi t ht with ⟨-, -, h | h⟩
    · exact Or.inl ⟨by simp [h.1], h.2.1⟩
    · exact Or.inr ⟨h.1, h.2.1⟩

/-- Claim C10: the requested units form the half-open day interval [s, e):
with e after s the engine produces exactly `e - s` TimeSteps, whose timestamps
are the days `s, s+1, …, e-1`; every timestamp is `≥ s` and `< e`, and the end
date `e` itself receives no TimeStep. -/
theorem half_open_day_interval (c : List SImage) (s e aoi : ℕ) (h : s < e) :
    (predictDailyLST c s e aoi).length = e - s ∧
    (predictDailyLST c s e aoi).map TimeStep.timestamp = List.range' s (e - s) ∧
    (∀ t ∈ predictDailyLST c s e aoi, s ≤ t.timestamp ∧ t.timestamp < e) ∧
    e ∉ (predictDailyLST c s e aoi).map TimeStep.timestamp := by
  refine ⟨predict_length c s e aoi, predict_map_timestamp c s e aoi, ?_, ?_⟩
  · intro t ht
    have : t.timestamp ∈ (predictDailyLST c s e aoi).map TimeStep.timestamp :=
      List.mem_map_of_mem TimeStep.timestamp ht
    rw [predict_map_timestamp, List.mem_range'_1] at this
    exact ⟨this.1, by omega⟩
  · rw [predict_map_timestamp, List.mem_range'_1]
    omega

/-- Witness for C10 at a concrete range: s = 2, e = 5, no imagery. -/
theorem half_open_day_interval_witness :
    2 < 5 ∧
    ((predictDailyLST [] 2 5 0).length = 5 - 2 ∧
      (predictDailyLST [] 2 5 0).map TimeStep.timestamp = List.range' 2 (5 - 2) ∧
      (∀ t ∈ predictDailyLST [] 2 5 0, 2 ≤ t.timestamp ∧ t.timestamp < 5) ∧
      5 ∉ (predictDailyLST [] 2 5 0).map TimeStep.timestamp) :=
  ⟨by decide, half_open_day_interval [] 2 5 0 (by decide)⟩

/-! ### Feature stack bands (claim C4)

Band names of the Sentinel-2 surface-reflectance product kept by
`cloudMaskS2` (which selects `"B.*"` after scaling), the derived bands, and
the two stacking sites: the training stack
`features = ee.Image([s2Image, ndmi, nbr, mndwi2, srtm.rename('elevation'), tpi, slope, strat])`
and the per-day inference stack
`all = img.addBands([ndmi, nbr, mndwi2, srtm.rename('elevation'), tpi, slope])`. -/

/-- Bands of COPERNICUS/S2_SR_HARMONIZED matching the `"B.*"` selection. -/
def s2BandNames : List String :=
  ["B1", "B2", "B3", "B4", "B5", "B6", "B7", "B8", "B8A", "B9", "B11", "B12"]

/-- A derived band's defining expression, as written in the script. -/
inductive BandExpr where
  | nd (a b : String)
  | dem
  | tpiOf
  | slopeOf
  | stratOf
deriving DecidableEq, Repr

/-- Derived bands added on top of the Sentinel-2 bands at the training site
(order of `ee.Image([...])`): the three normalized-difference indices, the DEM
renamed `elevation`, TPI, slope, and the stratification class image. -/
def trainingDerived : List (String × BandExpr) :=
  [("NDMI", .nd "B8" "B11"), ("NBR", .nd "B8" "B12"), ("MNDWI2", .nd "B3" "B12"),
   ("elevation", .dem), ("TPI", .tpiOf), ("slope", .slopeOf),
   ("elevation_class", .stratOf)]

/-- Derived bands added at the per-day inference site (`addBands([...])`). -/
def inferenceDerived : List (String × BandExpr) :=
  [("NDMI", .nd "B8" "B11"), ("NBR", .nd "B8" "B12"), ("MNDWI2", .nd "B3" "B12"),
   ("elevation", .dem), ("TPI", .tpiOf), ("slope", .slopeOf)]

/-- Band-name set of the training-period FeatureStack. -/
def trainingBandNames : List String := s2BandNames ++ trainingDerived.map Prod.fst

/-- Band-name set of the per-day inference FeatureStack. -/
def inferenceBandNames : List String := s2BandNames ++ inferenceDerived.map Prod.fst

/-- Counterexample to claim C4 as stated: the two stacks' band-name sets are
not identical — the training stack carries the stratification band
`elevation_class` which the inference stack lacks — and the source filtering
differs at the two sites: a half-cloudy image inside the region and date
window passes the training query but fails the per-day inference query, which
additionally requires `CLOUDY_PIXEL_PERCENTAGE < 10`. -/
theorem feature_stack_divergence_cx :
    trainingBandNames ≠ inferenceBandNames ∧
    "elevation_class" ∈ trainingBandNames ∧
    "elevation_class" ∉ inferenceBandNames ∧
    trainingFilter 7 0 10 ⟨5, [7], 50⟩ = true ∧
    inferenceFilter 7 5 ⟨5, [7], 50⟩ = false := by
  decide

/-- Claim C4 (amended): the inference-time FeatureStack's band names are
exactly the training-period FeatureStack's minus the stratification band
`elevation_class`; the shared derived bands are produced by identical
derivation expressions at both sites; and the inference-time source query is
the training query restricted to the unit's one-day window, strengthened by a
`CLOUDY_PIXEL_PERCENTAGE < 10` condition absent at training. -/
theorem feature_stack_amended :
    inferenceBandNames = trainingBandNames.filter (fun b => !(b == "elevation_class")) ∧
    inferenceDerived = trainingDerived.filter (fun p => !(p.1 == "elevation_class")) ∧
    (inferenceDerived.all (fun p => trainingDerived.contains p)) = true ∧
    ∀ (a d : ℕ) (im : SImage),
      inferenceFilter a d im =
        (trainingFilter a d (d + 1) im && decide (im.cloudyPixelPercentage < 10)) := by
  refine ⟨by decide, by decide, by decide, ?_⟩
  intro a d im
  unfold inferenceFilter trainingFilter
  have hday : (im.day == d) = (decide (d ≤ im.day) && decide (im.day < d + 1)) := by
    by_cases h : im.day = d
    · simp [h]
    · by_cases h2 : d ≤ im.day
      · have h3 : ¬ im.day < d + 1 := by omega
        simp [h, h2, h3]
      · simp [h, h2]
  rw [hday]
  cases im.regions.contains a <;>
    cases decide (d ≤ im.day) <;>
      cases decide (im.day < d + 1) <;>
        cases decide (im.cloudyPixelPercentage < 10) <;> rfl

/-! ### Claims C2 and C3: the two terminal step shapes

The script's NoData branch sets the marker property `noData = 1` and the
timestamp; it never sets a `sourceImageCount` property — and neither does the
Valid branch, which only sets the timestamp.  Both claims assert a
`sourceImageCount` property on the output, which the code does not record, so
each claim is refuted at a concrete input and an amended statement is proved. -/

/-- Counterexample to claim C2 as stated: with an empty image collection, day 0
of the range [0, 1) matches zero source images and the engine emits the NoData
step; that step's `sourceImageCount` property is unset (`none`), not `0`. -/
theorem nodata_count_absent_cx :
    s2day [] 0 0 = [] ∧
    predictDailyLST [] 0 1 0 = [⟨0, ["LST"], none, some 1, none⟩] ∧
    ((predictDailyLST [] 0 1 0).getD 0 dummyStep).noData = some 1 ∧
    ((predictDailyLST [] 0 1 0).getD 0 dummyStep).sourceImageCount ≠ some 0 := by
  decide

/-- Claim C2 (amended): for every time unit in range whose source-image query
returns zero matching images, the engine yields the NoData step: it preserves
the unit's timestamp, carries the marker property `noData = 1` (no
`sourceImageCount` property is recorded), and contains no predicted field;
moreover it is the unique step of the series at that timestamp. -/
theorem nodata_step_shape (c : List SImage) (s e aoi d : ℕ)
    (h1 : s ≤ d) (h2 : d < e) (hz : s2day c aoi d = []) :
    (⟨d, ["LST"], none, some 1, none⟩ : TimeStep) ∈ predictDailyLST c s e aoi ∧
    ∀ t ∈ predictDailyLST c s e aoi, t.timestamp = d →
      t = (⟨d, ["LST"], none, some 1, none⟩ : TimeStep) := by
  have hlen : ¬ 0 < (s2day c aoi (s + (d - s))).length := by
    rw [show s + (d - s) = d by omega, hz]; simp
  constructor
  · rw [predict_mem_iff]
    refine ⟨d - s, by omega, ?_⟩
    rw [if_neg hlen]
    simp [show s + (d - s) = d by omega]
  · intro t ht htd
    rcases (predict_mem_iff c s e aoi t).1 ht with ⟨o, ho, rfl⟩
    have hts : s + o = d := by
      by_cases h : 0 < (s2day c aoi (s + o)).length <;> simp [h] at htd ⊢ <;> omega
    rw [hts, if_neg (by rw [hz]; simp)]

/-- Witness for the amended C2 at a concrete input: range [0, 2), day 1,
empty collection. -/
theorem nodata_step_shape_witness :
    (0 ≤ 1 ∧ 1 < 2 ∧ s2day [] 0 1 = []) ∧
    ((⟨1, ["LST"], none, some 1, none⟩ : TimeStep) ∈ predictDailyLST [] 0 2 0 ∧
      ∀ t ∈ predictDailyLST [] 0 2 0, t.timestamp = 1 →
        t = (⟨1, ["LST"], none, some 1, none⟩ : TimeStep)) :=
  ⟨⟨by decide, by decide, by decide⟩,
    nodata_step_shape [] 0 2 0 1 (by decide) (by decide) (by decide)⟩

/-- A concrete matching image for the C3 counterexample and witness: acquired
on day 0, footprint intersecting region 0, fully cloud-free. -/
def demoImage : SImage := ⟨0, [0], 0⟩

/-- Counterexample to claim C3 as stated: with exactly one matching source
image on day 0, the engine emits the Valid step (predicted field present), yet
its `sourceImageCount` property is unset (`none`) rather than the positive
match count — the count only gates the branch and is never recorded. -/
theorem valid_count_absent_cx :
    s2day [demoImage] 0 0 = [demoImage] ∧
    ((predictDailyLST [demoImage] 0 1 0).getD 0 dummyStep).field.isSome = true ∧
    ((predictDailyLST [demoImage] 0 1 0).getD 0 dummyStep).bands = ["LST"] ∧
    ((predictDailyLST [demoImage] 0 1 0).getD 0 dummyStep).sourceImageCount = none := by
  decide

/-- Claim C3 (amended): for every time unit in range with at least one matching
source image, the engine yields a Valid step: a single band carrying the
configured band name `LST`, tagged with the unit's timestamp, whose predicted
field is classified from the matched composite inputs; the positive match
count only gates the branch (`s2day.size().gt(0)`) and no `sourceImageCount`
property is recorded on the output.  The step is the unique one of the series
at that timestamp. -/
theorem valid_step_shape (c : List SImage) (s e aoi d : ℕ)
    (h1 : s ≤ d) (h2 : d < e) (hp : 0 < (s2day c aoi d).length) :
    (⟨d, ["LST"], some (s2day c aoi d), none, none⟩ : TimeStep) ∈ predictDailyLST c s e aoi ∧
    ∀ t ∈ predictDailyLST c s e aoi, t.timestamp = d →
      t = (⟨d, ["LST"], some (s2day c aoi d), none, none⟩ : TimeStep) := by
  have hsd : s + (d - s) = d := by omega
  constructor
  · rw [predict_mem_iff]
    exact ⟨d - s, by omega, by rw [hsd, if_pos hp]⟩
  · intro t ht htd
    rcases (predict_mem_iff c s e aoi t).1 ht with ⟨o, ho, rfl⟩
    have hts : s + o = d := by
      by_cases h : 0 < (s2day c aoi (s + o)).length <;> simp [h] at htd ⊢ <;> omega
    rw [hts, if_pos hp]

/-- Witness for the amended C3 at a concrete input: range [0, 1), day 0, one
matching cloud-free image. -/
theorem valid_step_shape_witness :
    (0 ≤ 0 ∧ 0 < 1 ∧ 0 < (s2day [demoImage] 0 0).length) ∧
    ((⟨0, ["LST"], some (s2day [demoImage] 0 0), none, none⟩ : TimeStep) ∈
        predictDailyLST [demoImage] 0 1 0 ∧
      ∀ t ∈ predictDailyLST [demoImage] 0 1 0, t.timestamp = 0 →
        t = (⟨0, ["LST"], some (s2day [demoImage] 0 0), none, none⟩ : TimeStep)) :=
  ⟨⟨by decide, by decide, by decide⟩,
    valid_step_shape [demoImage] 0 1 0 0 (by decide) (by decide) (by decide)⟩

/-! ### Training samples and correlation ranking (claims C5, C6)

A sample is one point of the stratified sample: a property list mapping band
names (and the label `LST`) to numeric values.  The script computes, for each
candidate predictor, Pearson's correlation of its column against the label
column (`reduceColumns(ee.Reducer.pearsonsCorrelation().repeat(n), ...)`) and
squares it; it then ranks by descending R² with
`correlation.limit(finalPredictorsSize * 2, 'r2', false)` and keeps
`slice(0, finalPredictorsSize)`. -/

/-- The regression target band name (`var label = 'LST'`). -/
def labelName : String := "LST"

/-- The candidate predictor list of the script. -/
def predictors : List String :=
  ["B4", "B8", "B11", "NDMI", "NBR", "MNDWI2", "elevation", "TPI", "slope"]

/-- The configured number of final predictors (`finalPredictorsSize = 3`). -/
def finalPredictorsSize : ℕ := 3

/-- One training sample: named numeric properties (feature values plus the
label value). -/
structure Sample where
  vals : List (String × ℚ)
deriving DecidableEq, Repr

/-- Property read on a sample.  All samples of the modelled pipeline carry
every queried property, so the default on a missing key is never exercised. -/
def Sample.value (x : Sample) (b : String) : ℚ := (x.vals.lookup b).getD 0

/-- One column of the sample table. -/
def column (ss : List Sample) (b : String) : List ℚ := ss.map (fun x => x.value b)

/-- Mean of a rational column. -/
def meanQ (xs : List ℚ) : ℚ := xs.sum / xs.length

/-- Squared Pearson correlation of two equal-length columns.  The script
computes Pearson's r and squares it (`.pow(2)`); the square is computed here
in closed form, `r² = sxy² / (sxx · syy)`, which avoids the square root and
stays in ℚ.  An empty table or a zero-variance column leaves Pearson's
correlation undefined, which the reducer reports as a non-numeric (null)
result: modelled as `none`. -/
def pearsonR2 (xs ys : List ℚ) : Option ℚ :=
  if xs.length = 0 then none
  else
    let mx := meanQ xs
    let my := meanQ ys
    let sxx := (xs.map (fun v => (v - mx) * (v - mx))).sum
    let syy := (ys.map (fun v => (v - my) * (v - my))).sum
    let sxy := ((xs.zip ys).map (fun p => (p.1 - mx) * (p.2 - my))).sum
    if sxx = 0 ∨ syy = 0 then none
    else some (sxy * sxy / (sxx * syy))

/-- The `correlation` FeatureCollection: one entry per candidate, pairing the
candidate's name with its R² against the label over all samples.  The script
maps over the full candidate list unconditionally — no entry is ever dropped. -/
def correlationRanking (ss : List Sample) (cands : List String) :
    List (String × Option ℚ) :=
  cands.map (fun b => (b, pearsonR2 (column ss b) (column ss labelName)))

/-- Sort key used by `limit(·, 'r2', false)`.  Ordering of a null score is
left unspecified by the source; none of the theorems below depends on it. -/
def scoreOf (p : String × Option ℚ) : ℚ := p.2.getD 0

/-- Descending insertion of one ranking entry. -/
def insertDescend (x : String × Option ℚ) :
    List (String × Option ℚ) → List (String × Option ℚ)
  | [] => [x]
  | y :: ys => if scoreOf y ≤ scoreOf x then x :: y :: ys else y :: insertDescend x ys

/-- Descending sort by R², modelling the server-side
`limit(n, 'r2', false)` ordering. -/
def sortDescend : List (String × Option ℚ) → List (String × Option ℚ)
  | [] => []
  | x :: xs => insertDescend x (sortDescend xs)

/-- `topCorr`: the names of the top `2K` entries by descending R²
(`limit(finalPredictorsSize * 2, 'r2', false).aggregate_array('feature')`). -/
def topCorr (ss : List Sample) (cands : List String) (K : ℕ) : List String :=
  ((sortDescend (correlationRanking ss cands)).take (2 * K)).map Prod.fst

/-- `modelFeatures`: the first `K` names of the shortlist (`slice(0, K)`). -/
def modelFeatures (ss : List Sample) (cands : List String) (K : ℕ) : List String :=
  (topCorr ss cands K).take K

/-- The global top-`K` candidates by descending R². -/
def globalTopK (ss : List Sample) (cands : List String) (K : ℕ) : List String :=
  ((sortDescend (correlationRanking ss cands)).map Prod.fst).take K

/-- Four synthetic samples for the C5 scenario: candidate `A` equals the label
(perfectly correlated), candidate `B` has nonzero variance but zero covariance
with the label (uncorrelated). -/
def demoSamples : List Sample :=
  [⟨[("A", 1), ("B", 1), ("LST", 1)]⟩,
   ⟨[("A", 2), ("B", 0), ("LST", 2)]⟩,
   ⟨[("A", 3), ("B", 0), ("LST", 3)]⟩,
   ⟨[("A", 4), ("B", 1), ("LST", 4)]⟩]

lemma col_demo_A : column demoSamples "A" = [1, 2, 3, 4] := rfl

lemma col_demo_B : column demoSamples "B" = [1, 0, 0, 1] := rfl

lemma col_demo_label : column demoSamples labelName = [1, 2, 3, 4] := rfl

lemma r2_demo_A :
    pearsonR2 (column demoSamples "A") (column demoSamples labelName) = some 1 := by
  rw [col_demo_A, col_demo_label]
  norm_num [pearsonR2, meanQ]

lemma r2_demo_B :
    pearsonR2 (column demoSamples "B") (column demoSamples labelName) = some 0 := by
  rw [col_demo_B, col_demo_label]
  norm_num [pearsonR2, meanQ]

lemma ranking_demo :
    correlationRanking demoSamples ["A", "B"] = [("A", some 1), ("B", some 0)] := by
  simp [correlationRanking, r2_demo_A, r2_demo_B]

/-- Claim C5: the feature selector scores each candidate by squared Pearson
correlation against the label, ranks by descending R², and the final predictor
set — the first `K` of the top-`2K` shortlist — always equals the global top
`K` candidates by R²; on the synthetic sample set, `A` (R² = 1) ranks above
`B` (R² = 0) and `K = 1` selects exactly `[A]`. -/
theorem selector_top_k (ss0 : List Sample) (cands0 : List String) (K0 : ℕ) :
    modelFeatures ss0 cands0 K0 = globalTopK ss0 cands0 K0 ∧
    correlationRanking demoSamples ["A", "B"] = [("A", some 1), ("B", some 0)] ∧
    sortDescend (correlationRanking demoSamples ["A", "B"]) =
      [("A", some 1), ("B", some 0)] ∧
    modelFeatures demoSamples ["A", "B"] 1 = ["A"] := by
  refine ⟨?_, ranking_demo, ?_, ?_⟩
  · unfold modelFeatures topCorr globalTopK
    rw [List.map_take, List.take_take, Nat.min_eq_left (by omega)]
  · rw [ranking_demo]
    norm_num [sortDescend, insertDescend, scoreOf]
  · unfold modelFeatures topCorr
    rw [ranking_demo]
    norm_num [sortDescend, insertDescend, scoreOf]

/-- Three samples exhibiting a degenerate candidate for claim C6: feature `C`
is constant (zero variance) while the label varies. -/
def degenerateSamples : List Sample :=
  [⟨[("C", 5), ("slope", 1), ("LST", 1)]⟩,
   ⟨[("C", 5), ("slope", 2), ("LST", 2)]⟩,
   ⟨[("C", 5), ("slope", 4), ("LST", 3)]⟩]

/-- Claim C6 (the code contradicts it): a zero-variance candidate's Pearson
correlation is undefined (`none`), yet the script maps every candidate into
the `correlation` collection unconditionally, so the degenerate feature `C` is
NOT excluded: the ranking keeps one entry per candidate and contains `C`
paired with the non-numeric score. -/
theorem degenerate_not_excluded :
    pearsonR2 (column degenerateSamples "C") (column degenerateSamples labelName) =
      none ∧
    correlationRanking degenerateSamples ["C", "slope"] =
      [("C", none), ("slope", some (27 / 28))] ∧
    ("C", (none : Option ℚ)) ∈ correlationRanking degenerateSamples ["C", "slope"] ∧
    (correlationRanking degenerateSamples ["C", "slope"]).length = 2 := by
  have hcC : column degenerateSamples "C" = [5, 5, 5] := rfl
  have hcS : column degenerateSamples "slope" = [1, 2, 4] := rfl
  have hcL : column degenerateSamples labelName = [1, 2, 3] := rfl
  have hC : pearsonR2 (column degenerateSamples "C")
      (column degenerateSamples labelName) = none := by
    rw [hcC, hcL]
    norm_num [pearsonR2, meanQ]
  have hS : pearsonR2 (column degenerateSamples "slope")
      (column degenerateSamples labelName) = some (27 / 28) := by
    rw [hcS, hcL]
    norm_num [pearsonR2, meanQ]
  have hrank : correlationRanking degenerateSamples ["C", "slope"] =
      [("C", none), ("slope", some (27 / 28))] := by
    simp [correlationRanking, hC, hS]
  exact ⟨hC, hrank, by rw [hrank]; simp, by rw [hrank]; rfl⟩

/-! ### Train/test split (claim C7)

The script runs `sample = sample.randomColumn()` and keeps
`train = sample.filter(ee.Filter.lte('random', train_ratio))`.  `randomColumn`
is an Earth Engine library primitive: it appends to every sample an
independent pseudo-random draw in [0,1) determined by the seed.  The test
partition is not materialized by the script; per the split semantics (§4.4,
"Train (draw ≤ r) or Test (otherwise)") it is the remainder of the same
per-sample split. -/

/-- Modelled from the spec: the per-sample pseudo-random draw supplied by the
`randomColumn` library primitive — a deterministic seeded hash of the sample's
position, scaled into [0,1). -/
def rngValue (seed i : ℕ) : ℚ :=
  (((1103515245 * (seed + i) + 12345) % 2147483648 : ℕ) : ℚ) / 2147483648

/-- `sample.randomColumn()`: append the property `random` to every sample. -/
def randomColumn (ss : List Sample) (seed : ℕ) : List Sample :=
  ss.enum.map (fun p => ⟨p.2.vals ++ [("random", rngValue seed p.1)]⟩)

/-- `train = sample.filter(ee.Filter.lte('random', train_ratio))`. -/
def trainSplit (ss : List Sample) (r : ℚ) : List Sample :=
  ss.filter (fun x => decide (x.value "random" ≤ r))

/-- The remainder of the split: samples whose draw exceeds the ratio. -/
def testSplit (ss : List Sample) (r : ℚ) : List Sample :=
  ss.filter (fun x => !(decide (x.value "random" ≤ r)))

/-- Claim C7: for every sample set, seed and split ratio r ∈ (0,1), each
sample of the random-column table is assigned to Train exactly when its own
draw is ≤ r and to Test exactly otherwise (a per-sample assignment, not a
fixed-count split); Train and Test are disjoint and together are a
permutation of the full sample set. -/
theorem split_partition (ss : List Sample) (seed : ℕ) (r : ℚ)
    (_h0 : 0 < r) (_h1 : r < 1) :
    (∀ x ∈ randomColumn ss seed,
      (x ∈ trainSplit (randomColumn ss seed) r ↔ x.value "random" ≤ r) ∧
      (x ∈ testSplit (randomColumn ss seed) r ↔ ¬ x.value "random" ≤ r)) ∧
    (∀ x, ¬ (x ∈ trainSplit (randomColumn ss seed) r ∧
      x ∈ testSplit (randomColumn ss seed) r)) ∧
    List.Perm
      (trainSplit (randomColumn ss seed) r ++ testSplit (randomColumn ss seed) r)
      (randomColumn ss seed) := by
  refine ⟨?_, ?_, ?_⟩
  · intro x hx
    constructor
    · simp [trainSplit, List.mem_filter, hx]
    · simp [testSplit, List.mem_filter, hx]
  · rintro x ⟨hx1, hx2⟩
    simp only [trainSplit, List.mem_filter, decide_eq_true_eq] at hx1
    simp only [testSplit, List.mem_filter, Bool.not_eq_eq_eq_not, Bool.not_true,
      decide_eq_false_iff_not] at hx2
    exact hx2.2 hx1.2
  · exact List.filter_append_perm _ _

/-- Two concrete samples for the C7 witness. -/
def demoSplitSamples : List Sample :=
  [⟨[("B4", 2), ("LST", 21)]⟩, ⟨[("B4", 3), ("LST", 24)]⟩]

/-- Witness for C7 at seed 1 and the script's `train_ratio = 0.7`. -/
theorem split_partition_witness :
    ((0 : ℚ) < 7 / 10 ∧ (7 : ℚ) / 10 < 1) ∧
    ((∀ x ∈ randomColumn demoSplitSamples 1,
        (x ∈ trainSplit (randomColumn demoSplitSamples 1) (7 / 10) ↔
          x.value "random" ≤ 7 / 10) ∧
        (x ∈ testSplit (randomColumn demoSplitSamples 1) (7 / 10) ↔
          ¬ x.value "random" ≤ 7 / 10)) ∧
      (∀ x, ¬ (x ∈ trainSplit (randomColumn demoSplitSamples 1) (7 / 10) ∧
        x ∈ testSplit (randomColumn demoSplitSamples 1) (7 / 10))) ∧
      List.Perm
        (trainSplit (randomColumn demoSplitSamples 1) (7 / 10) ++
          testSplit (randomColumn demoSplitSamples 1) (7 / 10))
        (randomColumn demoSplitSamples 1)) :=
  ⟨⟨by norm_num, by norm_num⟩,
    split_partition demoSplitSamples 1 (7 / 10) (by norm_num) (by norm_num)⟩

/-! ### Stratified sampling determinism (claim C8)

The script draws its sample with
`features.addBands(lstLandsat).stratifiedSample({scale: 30, numPoints: 1000, region: roi, classBand: 'elevation_class', seed: 1})`.
The points of the region are modelled with their elevation, their feature-band
values, and their per-day Landsat LST observations; the stratum classification
is the script's `where`-chain over the DEM.  The `stratifiedSample` primitive
itself is an Earth Engine library collaborator, modelled from the spec (§4.2):
partition the region by stratum class, draw per class, join each point to its
feature values and label value, deterministically in the seed. -/

/-- One pixel/point of the region. -/
structure Point where
  elev : ℤ
  bandVals : List (String × ℚ)
  lstSeries : List (ℕ × ℚ)
deriving DecidableEq, Repr

/-- The script's stratified elevation classes (`strat`, built with a chain of
`where` clauses over the DEM): the classes partition ℤ exhaustively. -/
def stratClass (z : ℤ) : ℕ :=
  if z < 0 then 1
  else if z < 10 then 2
  else if z < 50 then 3
  else if z < 100 then 4
  else if z < 500 then 5
  else if z < 1000 then 6
  else 7

/-- Modelled from the spec: the seeded hash ordering the per-class draw of the
`stratifiedSample` library primitive. -/
def drawKey (seed i : ℕ) : ℕ := (1103515245 * (seed + i) + 12345) % 2147483648

/-- Seeded insertion of one indexed point. -/
def insertKeyed (seed : ℕ) (x : ℕ × Point) :
    List (ℕ × Point) → List (ℕ × Point)
  | [] => [x]
  | y :: ys =>
    if drawKey seed x.1 ≤ drawKey seed y.1 then x :: y :: ys
    else y :: insertKeyed seed x ys

/-- Seeded ordering of the indexed points of one class. -/
def sortKeyed (seed : ℕ) : List (ℕ × Point) → List (ℕ × Point)
  | [] => []
  | x :: xs => insertKeyed seed x (sortKeyed seed xs)

/-- The indexed points of the region falling in stratum class `k`. -/
def classPoints (region : List Point) (k : ℕ) : List (ℕ × Point) :=
  region.enum.filter (fun p => stratClass p.2.elev == k)

/-- Modelled from the spec: `stratifiedSample` — for each stratum class, draw
up to `numPts` of its points in the seed-keyed order.  A class with no points
contributes no samples. -/
def stratifiedSample (region : List Point) (numPts seed : ℕ) : List Point :=
  (((List.range 8).drop 1).map (fun k =>
    ((sortKeyed seed (classPoints region k)).take numPts).map Prod.snd)).flatten

/-- The coarse label at a point: `lstLandsat` is the mean over the
cloud-masked Landsat LST observations of the training window [s, e). -/
def labelAt (s e : ℕ) (p : Point) : ℚ :=
  meanQ ((p.lstSeries.filter (fun q => decide (s ≤ q.1) && decide (q.1 < e))).map
    Prod.snd)

/-- The full sampling run: stratified draw, then join of feature values and
label value per sampled point (`features.addBands(lstLandsat)` read at the
sample points). -/
def sampleRun (seed : ℕ) (region : List Point) (s e : ℕ) : List Sample :=
  (stratifiedSample region 1000 seed).map
    (fun p => ⟨p.bandVals ++ [(labelName, labelAt s e p)]⟩)

/-- The full ranking run: the correlation ranking of the script's candidate
predictor list over the drawn sample set. -/
def rankingRun (seed : ℕ) (region : List Point) (s e : ℕ) :
    List (String × Option ℚ) :=
  correlationRanking (sampleRun seed region s e) predictors

/-- Claim C8: two runs with identical seed, region and date range produce an
identical SampleSet and an identical FeatureRanking — the pipeline has no
input besides the ones shown, so run-to-run equality follows from congruence
of the (deterministically seeded) sampling and ranking functions. -/
theorem sampler_ranking_deterministic (seed1 seed2 : ℕ) (reg1 reg2 : List Point)
    (s1 e1 s2 e2 : ℕ) (hseed : seed1 = seed2) (hreg : reg1 = reg2)
    (hs : s1 = s2) (he : e1 = e2) :
    sampleRun seed1 reg1 s1 e1 = sampleRun seed2 reg2 s2 e2 ∧
    rankingRun seed1 reg1 s1 e1 = rankingRun seed2 reg2 s2 e2 := by
  subst hseed; subst hreg; subst hs; subst he
  exact ⟨rfl, rfl⟩

/-- A two-point region (one low, one mountainous pixel) for the C8 witness. -/
def demoRegion : List Point :=
  [⟨5, [("B4", 2), ("B8", 3)], [(0, 20), (1, 22)]⟩,
   ⟨1200, [("B4", 1), ("B8", 5)], [(0, 14)]⟩]

/-- Witness for C8: two runs at seed 1 over the same region and range [0, 10)
coincide. -/
theorem sampler_ranking_deterministic_witness :
    (1 = 1 ∧ demoRegion = demoRegion ∧ 0 = 0 ∧ 10 = 10) ∧
    (sampleRun 1 demoRegion 0 10 = sampleRun 1 demoRegion 0 10 ∧
      rankingRun 1 demoRegion 0 10 = rankingRun 1 demoRegion 0 10) :=
  ⟨⟨rfl, rfl, rfl, rfl⟩,
    sampler_ranking_deterministic 1 1 demoRegion demoRegion 0 10 0 10 rfl rfl rfl rfl⟩

/-! ### Series assembler (claim C9)

`var filtered = dailyLST.filter(ee.Filter.neq('noData', 1)).sort('system:time_start')`
— the filtered view drops the images flagged `noData = 1` (an image without
the property passes the `neq` filter, its value being null) and sorts by
timestamp ascending; the full series (consumed unfiltered by the QA chart) is
the collection itself. -/

/-- Timestamp order on steps. -/
def tsLE (a b : TimeStep) : Prop := a.timestamp ≤ b.timestamp

instance : DecidableRel tsLE := fun a b => Nat.decLe a.timestamp b.timestamp

instance : IsTotal TimeStep tsLE := ⟨fun a b => Nat.le_total a.timestamp b.timestamp⟩

instance : IsTrans TimeStep tsLE := ⟨fun _ _ _ h1 h2 => Nat.le_trans h1 h2⟩

/-- The full series view: the collection of all TimeStep outcomes itself. -/
def fullView (col : List TimeStep) : List TimeStep := col

/-- The filtered series view: drop `noData = 1` entries, sort by timestamp. -/
def filteredView (col : List TimeStep) : List TimeStep :=
  List.insertionSort tsLE (col.filter (fun t => decide (¬ t.noData = some 1)))

/-- Claim C9: over every collection of TimeStep outcomes (entries Valid with a
predicted field exactly when not flagged `noData = 1`), the filtered view
contains exactly the Valid entries — every Valid entry included, every NoData
entry excluded — sorted by timestamp ascending, while the full view retains
all entries including the NoData placeholders. -/
theorem assembler_views (col : List TimeStep)
    (hshape : ∀ t ∈ col, t.field.isSome = true ↔ ¬ t.noData = some 1) :
    (∀ t, t ∈ filteredView col ↔ (t ∈ col ∧ t.field.isSome = true)) ∧
    List.Sorted tsLE (filteredView col) ∧
    (∀ t ∈ col, t.noData = some 1 → t ∈ fullView col ∧ t ∉ filteredView col) ∧
    fullView col = col := by
  have hmem : ∀ t, t ∈ filteredView col ↔ (t ∈ col ∧ ¬ t.noData = some 1) := by
    intro t
    unfold filteredView
    rw [List.mem_insertionSort, List.mem_filter]
    simp
  refine ⟨?_, ?_, ?_, rfl⟩
  · intro t
    rw [hmem]
    constructor
    · rintro ⟨h1, h2⟩
      exact ⟨h1, (hshape t h1).2 h2⟩
    · rintro ⟨h1, h2⟩
      exact ⟨h1, (hshape t h1).1 h2⟩
  · exact List.sorted_insertionSort tsLE _
  · intro t ht hnd
    exact ⟨ht, fun hf => ((hmem t).1 hf).2 hnd⟩

/-- Witness for C9 on a two-step collection: one Valid step (day 0) and one
NoData placeholder (day 1). -/
theorem assembler_views_witness :
    (∀ t ∈ [(⟨0, ["LST"], some [demoImage], none, none⟩ : TimeStep),
        ⟨1, ["LST"], none, some 1, none⟩],
      t.field.isSome = true ↔ ¬ t.noData = some 1) ∧
    ((∀ t, t ∈ filteredView [(⟨0, ["LST"], some [demoImage], none, none⟩ : TimeStep),
        ⟨1, ["LST"], none, some 1, none⟩] ↔
        (t ∈ [(⟨0, ["LST"], some [demoImage], none, none⟩ : TimeStep),
          ⟨1, ["LST"], none, some 1, none⟩] ∧ t.field.isSome = true)) ∧
      List.Sorted tsLE (filteredView [(⟨0, ["LST"], some [demoImage], none, none⟩ : TimeStep),
        ⟨1, ["LST"], none, some 1, none⟩]) ∧
      (∀ t ∈ [(⟨0, ["LST"], some [demoImage], none, none⟩ : TimeStep),
          ⟨1, ["LST"], none, some 1, none⟩], t.noData = some 1 →
        t ∈ fullView [(⟨0, ["LST"], some [demoImage], none, none⟩ : TimeStep),
          ⟨1, ["LST"], none, some 1, none⟩] ∧
        t ∉ filteredView [(⟨0, ["LST"], some [demoImage], none, none⟩ : TimeStep),
          ⟨1, ["LST"], none, some 1, none⟩]) ∧
      fullView [(⟨0, ["LST"], some [demoImage], none, none⟩ : TimeStep),
        ⟨1, ["LST"], none, some 1, none⟩] =
        [(⟨0, ["LST"], some [demoImage], none, none⟩ : TimeStep),
          ⟨1, ["LST"], none, some 1, none⟩]) :=
  ⟨by decide,
    assembler_views
      [(⟨0, ["LST"], some [demoImage], none, none⟩ : TimeStep),
        ⟨1, ["LST"], none, some 1, none⟩] (by decide)⟩

end LSTPipeline
